import Mathlib

/-!
Shallow embedding of `src/main.rs` of the remote-serial-server
repository: a bidirectional byte relay between one serial endpoint and
one accepted TCP connection.  Startup (data-bits parsing, serial open,
TCP bind, single accept) and the relay loop body are modelled as pure
functions over an explicit environment oracle; all externally
observable effects (writes, console lines, open/bind/accept calls) are
collected as a list of `Action`s in program order.
-/

namespace RemoteSerial

/-- A byte as transported by the relay.  The program never performs
arithmetic on byte values, so `u8` is modelled as `Nat`. -/
abbrev Byte := Nat

/-- Capacity of both staging buffers: `[0u8; 1024]` (main.rs lines 88-89). -/
def chunkSize : Nat := 1024

/-- The serial data-bits setting (`tokio_serial::DataBits`). -/
inductive DataBits where
  | five
  | six
  | seven
  | eight
deriving DecidableEq, Repr

/-- Parity option (`ParityArg` in the source). -/
inductive ParityArg where
  | even
  | odd
  | none
deriving DecidableEq, Repr

/-- Stop-bits option (`StopBitsArg` in the source). -/
inductive StopBitsArg where
  | one
  | two
deriving DecidableEq, Repr

/-- The command-line configuration record (`Args`, main.rs lines 7-27). -/
structure Args where
  serial_port : String
  baud_rate : Nat
  data_bits : Nat
  parity : ParityArg
  stop_bits : StopBitsArg
  tcp_port : Nat
deriving DecidableEq, Repr

/-- The two relay endpoints. -/
inductive Dest where
  | serial
  | socket
deriving DecidableEq, Repr

/-- Externally observable effects of the process, in program order.
`closeEndpoint` is in the alphabet so that claims about closing can be
stated; the source contains no explicit close, so no code path emits it. -/
inductive Action where
  | openSerial (db : DataBits)
  | bindTcp (port : Nat)
  | acceptConn
  | writeTo (d : Dest) (bytes : List Byte)
  | closeEndpoint (d : Dest)
  | stdout (s : String)
  | stderr (s : String)
deriving DecidableEq, Repr

/-- Result of one completed `read` call: `Ok n` together with the `n`
delivered bytes, or an I/O error carrying its display message. -/
inductive ReadResult where
  | ok (data : List Byte)
  | ioErr (msg : String)
deriving DecidableEq, Repr

/-- Which branch of the `tokio::select!` (main.rs line 92) completed
this iteration, and with what read result. -/
inductive Event where
  | serialRead (r : ReadResult)
  | socketRead (r : ReadResult)
deriving DecidableEq, Repr

/-- Whether an iteration of the loop body falls through to the next
iteration or leaves the loop.  Every arm of the source's match either
falls through or executes `continue`; none breaks. -/
inductive LoopControl where
  | continueLoop
  | exitLoop
deriving DecidableEq, Repr

/-- The two 1024-byte staging buffers (`serial_buf`, `socket_buf`). -/
structure LoopState where
  serial_buf : List Byte
  socket_buf : List Byte
deriving DecidableEq, Repr

/-- Effect of `read(&mut buf)` delivering `data`: the first
`data.length` positions of the buffer are overwritten with the
delivered bytes and the remaining positions keep their residue. -/
def fillBuf (buf data : List Byte) : List Byte :=
  data ++ buf.drop data.length

/-- Buffer state on entry to the loop: both buffers zero-initialised
(`[0u8; 1024]`). -/
def initState : LoopState :=
  { serial_buf := List.replicate chunkSize 0
    socket_buf := List.replicate chunkSize 0 }

/-- Result of one iteration of the loop body. -/
structure StepOut where
  state : LoopState
  acts : List Action
  control : LoopControl
deriving DecidableEq, Repr

/-- One iteration of the relay loop body (main.rs lines 91-124).
`ev` is the select branch that completed; `wfail` tells whether the
forwarding `write_all`, if one is attempted, fails.  On `Ok(n)` with
`n > 0` the code writes `&buf[..n]` to the other endpoint and, on
write failure, prints to stdout via `println!` and continues; on
`Ok(0)` it does nothing; on a read error it prints to stderr via
`eprintln!` and continues. -/
def relayStep (st : LoopState) (ev : Event) (wfail : Bool) : StepOut :=
  match ev with
  | Event.serialRead r =>
    match r with
    | ReadResult.ok data =>
      let buf := fillBuf st.serial_buf data
      let n := data.length
      let st2 : LoopState := { st with serial_buf := buf }
      if n > 0 then
        if wfail then
          { state := st2
            acts := [Action.writeTo Dest.socket (buf.take n),
                     Action.stdout "Client write failed"]
            control := LoopControl.continueLoop }
        else
          { state := st2
            acts := [Action.writeTo Dest.socket (buf.take n)]
            control := LoopControl.continueLoop }
      else
        { state := st2, acts := [], control := LoopControl.continueLoop }
    | ReadResult.ioErr e =>
      { state := st
        acts := [Action.stderr ("Serial read error: " ++ e)]
        control := LoopControl.continueLoop }
  | Event.socketRead r =>
    match r with
    | ReadResult.ok data =>
      let buf := fillBuf st.socket_buf data
      let n := data.length
      let st2 : LoopState := { st with socket_buf := buf }
      if n > 0 then
        if wfail then
          { state := st2
            acts := [Action.writeTo Dest.serial (buf.take n),
                     Action.stdout "Serial write failed"]
            control := LoopControl.continueLoop }
        else
          { state := st2
            acts := [Action.writeTo Dest.serial (buf.take n)]
            control := LoopControl.continueLoop }
      else
        { state := st2, acts := [], control := LoopControl.continueLoop }
    | ReadResult.ioErr e =>
      { state := st
        acts := [Action.stderr ("Socket read error: " ++ e)]
        control := LoopControl.continueLoop }

/-- Run the relay loop over a finite prefix of completed select
events, threading the buffer state and collecting all emitted actions
in order. -/
def runLoop (st : LoopState) (trace : List (Event × Bool)) :
    LoopState × List Action :=
  match trace with
  | [] => (st, [])
  | (ev, wf) :: rest =>
      let out := relayStep st ev wf
      let tail := runLoop out.state rest
      (tail.1, out.acts ++ tail.2)

/-- The `match args.data_bits` of main.rs lines 64-73: maps the
numeric setting to `DataBits`, substituting `Eight` and emitting a
stderr warning for unrecognized values. -/
def parseDataBits (b : Nat) : DataBits × List Action :=
  match b with
  | 5 => (DataBits.five, [])
  | 6 => (DataBits.six, [])
  | 7 => (DataBits.seven, [])
  | 8 => (DataBits.eight, [])
  | _ => (DataBits.eight,
      [Action.stderr ("Unsupported data bits: " ++ toString b
        ++ ". Using 8 as default.")])

/-- The three fatal startup failures; each propagates through `?` and
makes `main` return `Err`, i.e. a non-zero process exit. -/
inductive StartupError where
  | deviceOpen
  | bind
  | accept
deriving DecidableEq, Repr

/-- Environment oracle deciding the three fallible startup operations,
plus the peer address reported by a successful accept. -/
structure Env where
  openOk : Bool
  bindOk : Bool
  acceptOk : Bool
  peerAddr : String
deriving DecidableEq, Repr

/-- Whole-process model of `main` (main.rs lines 62-125): data-bits
parse, serial open, TCP bind (then the listening line), single accept
(then the client-connected line), then the relay loop over `trace`.
The second component is `some e` exactly when `main` returns early
with startup error `e`; a `some` result means a non-zero exit before
the relay loop runs. -/
def mainActions (cfg : Args) (env : Env) (trace : List (Event × Bool)) :
    List Action × Option StartupError :=
  let parsed := parseDataBits cfg.data_bits
  let acts0 := parsed.2 ++ [Action.openSerial parsed.1]
  if env.openOk = false then
    (acts0, some StartupError.deviceOpen)
  else
    let acts1 := acts0 ++ [Action.bindTcp cfg.tcp_port]
    if env.bindOk = false then
      (acts1, some StartupError.bind)
    else
      let acts2 := acts1 ++
        [Action.stdout ("Listening on port " ++ toString cfg.tcp_port),
         Action.acceptConn]
      if env.acceptOk = false then
        (acts2, some StartupError.accept)
      else
        let acts3 := acts2 ++
          [Action.stdout ("Client connected: " ++ env.peerAddr)]
        (acts3 ++ (runLoop initState trace).2, none)

/-- Recognizer for forwarding writes. -/
def Action.isWrite : Action → Bool
  | Action.writeTo _ _ => true
  | _ => false

/-- Recognizer for endpoint closes. -/
def Action.isClose : Action → Bool
  | Action.closeEndpoint _ => true
  | _ => false

/-- Recognizer for stderr lines. -/
def Action.isStderr : Action → Bool
  | Action.stderr _ => true
  | _ => false

/-- Payloads of the forwarding writes in an action list, in order. -/
def writePayloads (acts : List Action) : List (List Byte) :=
  acts.filterMap fun a =>
    match a with
    | Action.writeTo _ bs => some bs
    | _ => Option.none

/-- Number of accept calls in an action list. -/
def countAccept : List Action → Nat
  | [] => 0
  | Action.acceptConn :: rest => countAccept rest + 1
  | _ :: rest => countAccept rest

/-! ## Helper lemmas -/

/-- Taking back the first `data.length` positions of a buffer just
filled with `data` recovers exactly `data`, whatever residue the
buffer held before. -/
theorem fillBuf_take (buf data : List Byte) :
    (fillBuf buf data).take data.length = data := by
  simp [fillBuf]

/-- Filling a buffer with at most its capacity preserves its length. -/
theorem fillBuf_length (buf data : List Byte) (h : data.length ≤ buf.length) :
    (fillBuf buf data).length = buf.length := by
  simp [fillBuf]
  omega

/-- A successful read of at least one byte makes the iteration issue
exactly one forwarding write, carrying exactly the delivered bytes, to
the opposite endpoint — whether or not that write then fails. -/
theorem relayStep_forwards (st : LoopState) (data : List Byte) (wfail : Bool)
    (h : 1 ≤ data.length) :
    (relayStep st (Event.serialRead (ReadResult.ok data)) wfail).acts.filter
        Action.isWrite = [Action.writeTo Dest.socket data] ∧
    (relayStep st (Event.socketRead (ReadResult.ok data)) wfail).acts.filter
        Action.isWrite = [Action.writeTo Dest.serial data] := by
  have hn : 0 < data.length := h
  cases wfail <;>
    simp [relayStep, hn, fillBuf_take, Action.isWrite, List.filter]

/-- Every arm of the loop body continues the loop. -/
theorem relayStep_continues (st : LoopState) (ev : Event) (wfail : Bool) :
    (relayStep st ev wfail).control = LoopControl.continueLoop := by
  rcases ev with r | r <;> rcases r with data | e <;>
    simp only [relayStep] <;> (repeat' split) <;> rfl

/-- No arm of the loop body closes an endpoint. -/
theorem relayStep_no_close (st : LoopState) (ev : Event) (wfail : Bool) :
    (relayStep st ev wfail).acts.filter Action.isClose = [] := by
  rcases ev with r | r <;> rcases r with data | e <;>
    simp only [relayStep] <;> (repeat' split) <;>
    simp [Action.isClose, List.filter]

/-- No arm of the loop body calls accept. -/
theorem relayStep_no_accept (st : LoopState) (ev : Event) (wfail : Bool) :
    countAccept (relayStep st ev wfail).acts = 0 := by
  rcases ev with r | r <;> rcases r with data | e <;>
    simp only [relayStep] <;> (repeat' split) <;> simp [countAccept]

/-- `countAccept` distributes over append. -/
theorem countAccept_append (l1 l2 : List Action) :
    countAccept (l1 ++ l2) = countAccept l1 + countAccept l2 := by
  induction l1 with
  | nil => simp [countAccept]
  | cons a rest ih =>
      cases a <;> simp [countAccept, ih]
      omega

/-- The relay loop as a whole never calls accept. -/
theorem runLoop_no_accept (st : LoopState) (trace : List (Event × Bool)) :
    countAccept (runLoop st trace).2 = 0 := by
  induction trace generalizing st with
  | nil => simp [runLoop, countAccept]
  | cons p rest ih =>
      obtain ⟨ev, wf⟩ := p
      simp [runLoop, countAccept_append, relayStep_no_accept, ih]

/-- `writePayloads` distributes over append. -/
theorem writePayloads_append (l1 l2 : List Action) :
    writePayloads (l1 ++ l2) = writePayloads l1 ++ writePayloads l2 := by
  simp [writePayloads]

/-- Iterating one fixed select outcome whose step never writes keeps
the whole run free of forwarding writes, for any number of
iterations. -/
theorem runLoop_no_write_of_step (ev : Event) (wf : Bool)
    (hacts : ∀ st, writePayloads (relayStep st ev wf).acts = []) :
    ∀ (k : Nat) (st : LoopState),
      writePayloads (runLoop st (List.replicate k (ev, wf))).2 = [] := by
  intro k
  induction k with
  | zero => intro st; simp [runLoop, writePayloads]
  | succ n ih =>
      intro st
      simp [List.replicate_succ, runLoop, writePayloads_append, hacts, ih]

/-- A read error produces no forwarding write. -/
theorem relayStep_ioErr_no_write (st : LoopState) (e : String) (wf : Bool) :
    writePayloads (relayStep st (Event.serialRead (ReadResult.ioErr e)) wf).acts
        = [] ∧
    writePayloads (relayStep st (Event.socketRead (ReadResult.ioErr e)) wf).acts
        = [] := by
  constructor <;> rfl

/-! ## Claim theorems -/

/-- C1: in any iteration where a read from one endpoint succeeds with
n ≥ 1 bytes, exactly those n bytes are forwarded to the other endpoint
as one single contiguous write, in the same relative order — neither
altered, reordered, duplicated, nor truncated: a serial read of `data`
yields the single write of `data` to the socket, and a socket read of
`data` yields the single write of `data` to the serial endpoint. -/
theorem reads_forward_exact_bytes (st : LoopState) (data : List Byte)
    (wfail : Bool) (h : 1 ≤ data.length) :
    (relayStep st (Event.serialRead (ReadResult.ok data)) wfail).acts.filter
        Action.isWrite = [Action.writeTo Dest.socket data] ∧
    (relayStep st (Event.socketRead (ReadResult.ok data)) wfail).acts.filter
        Action.isWrite = [Action.writeTo Dest.serial data] :=
  relayStep_forwards st data wfail h

/-- Witness for C1 at the concrete five-byte input "PING\n". -/
theorem reads_forward_exact_bytes_witness :
    1 ≤ ([80, 73, 78, 71, 10] : List Byte).length ∧
    ((relayStep initState
        (Event.serialRead (ReadResult.ok [80, 73, 78, 71, 10])) false).acts.filter
        Action.isWrite = [Action.writeTo Dest.socket [80, 73, 78, 71, 10]] ∧
     (relayStep initState
        (Event.socketRead (ReadResult.ok [80, 73, 78, 71, 10])) false).acts.filter
        Action.isWrite = [Action.writeTo Dest.serial [80, 73, 78, 71, 10]]) :=
  ⟨by decide,
   reads_forward_exact_bytes initState [80, 73, 78, 71, 10] false (by decide)⟩

/-- C2: an iteration whose read succeeds with zero bytes performs no
action at all — no write to either endpoint, no close of either
endpoint — and the loop continues; a zero-byte read is never treated
as connection closure or a reason for teardown. -/
theorem zero_read_no_action_continues (st : LoopState) (wfail : Bool) :
    ((relayStep st (Event.serialRead (ReadResult.ok [])) wfail).acts = [] ∧
     (relayStep st (Event.serialRead (ReadResult.ok [])) wfail).control
        = LoopControl.continueLoop) ∧
    ((relayStep st (Event.socketRead (ReadResult.ok [])) wfail).acts = [] ∧
     (relayStep st (Event.socketRead (ReadResult.ok [])) wfail).control
        = LoopControl.continueLoop) :=
  ⟨⟨rfl, relayStep_continues st (Event.serialRead (ReadResult.ok [])) wfail⟩,
   ⟨rfl, relayStep_continues st (Event.socketRead (ReadResult.ok [])) wfail⟩⟩

/-- C3: an iteration whose read fails with an I/O error logs the
failure, writes nothing, leaves the buffers untouched and continues
the loop; moreover any number of consecutive error iterations still
produces no write and completes, so read errors are retried without
limit. -/
theorem read_errors_logged_nonfatal (st : LoopState) (e : String)
    (wfail : Bool) (k : Nat) :
    ((relayStep st (Event.serialRead (ReadResult.ioErr e)) wfail).acts
        = [Action.stderr ("Serial read error: " ++ e)] ∧
     (relayStep st (Event.serialRead (ReadResult.ioErr e)) wfail).control
        = LoopControl.continueLoop ∧
     (relayStep st (Event.serialRead (ReadResult.ioErr e)) wfail).state = st) ∧
    ((relayStep st (Event.socketRead (ReadResult.ioErr e)) wfail).acts
        = [Action.stderr ("Socket read error: " ++ e)] ∧
     (relayStep st (Event.socketRead (ReadResult.ioErr e)) wfail).control
        = LoopControl.continueLoop ∧
     (relayStep st (Event.socketRead (ReadResult.ioErr e)) wfail).state = st) ∧
    writePayloads (runLoop st (List.replicate k
        (Event.serialRead (ReadResult.ioErr e), wfail))).2 = [] ∧
    writePayloads (runLoop st (List.replicate k
        (Event.socketRead (ReadResult.ioErr e), wfail))).2 = [] :=
  ⟨⟨rfl, rfl, rfl⟩, ⟨rfl, rfl, rfl⟩,
   runLoop_no_write_of_step _ wfail
     (fun st2 => (relayStep_ioErr_no_write st2 e wfail).1) k st,
   runLoop_no_write_of_step _ wfail
     (fun st2 => (relayStep_ioErr_no_write st2 e wfail).2) k st⟩

/-- C4: an iteration whose forwarding write fails logs the failure and
continues the loop — no endpoint is closed, the relay does not end,
and an immediately following successful read (in either direction) is
still forwarded exactly. -/
theorem write_failure_logged_nonfatal (st : LoopState)
    (data data2 : List Byte) (wfail2 : Bool)
    (h : 1 ≤ data.length) (h2 : 1 ≤ data2.length) :
    ((relayStep st (Event.serialRead (ReadResult.ok data)) true).acts
        = [Action.writeTo Dest.socket data,
           Action.stdout "Client write failed"] ∧
     (relayStep st (Event.serialRead (ReadResult.ok data)) true).control
        = LoopControl.continueLoop ∧
     (relayStep st (Event.serialRead (ReadResult.ok data)) true).acts.filter
        Action.isClose = [] ∧
     (relayStep ((relayStep st (Event.serialRead (ReadResult.ok data)) true).state)
        (Event.serialRead (ReadResult.ok data2)) wfail2).acts.filter
        Action.isWrite = [Action.writeTo Dest.socket data2] ∧
     (relayStep ((relayStep st (Event.serialRead (ReadResult.ok data)) true).state)
        (Event.socketRead (ReadResult.ok data2)) wfail2).acts.filter
        Action.isWrite = [Action.writeTo Dest.serial data2]) ∧
    ((relayStep st (Event.socketRead (ReadResult.ok data)) true).acts
        = [Action.writeTo Dest.serial data,
           Action.stdout "Serial write failed"] ∧
     (relayStep st (Event.socketRead (ReadResult.ok data)) true).control
        = LoopControl.continueLoop ∧
     (relayStep st (Event.socketRead (ReadResult.ok data)) true).acts.filter
        Action.isClose = [] ∧
     (relayStep ((relayStep st (Event.socketRead (ReadResult.ok data)) true).state)
        (Event.serialRead (ReadResult.ok data2)) wfail2).acts.filter
        Action.isWrite = [Action.writeTo Dest.socket data2] ∧
     (relayStep ((relayStep st (Event.socketRead (ReadResult.ok data)) true).state)
        (Event.socketRead (ReadResult.ok data2)) wfail2).acts.filter
        Action.isWrite = [Action.writeTo Dest.serial data2]) := by
  have hn : 0 < data.length := h
  refine ⟨⟨?_, relayStep_continues _ _ _, relayStep_no_close _ _ _,
      (relayStep_forwards _ data2 wfail2 h2).1,
      (relayStep_forwards _ data2 wfail2 h2).2⟩,
    ⟨?_, relayStep_continues _ _ _, relayStep_no_close _ _ _,
      (relayStep_forwards _ data2 wfail2 h2).1,
      (relayStep_forwards _ data2 wfail2 h2).2⟩⟩ <;>
    simp [relayStep, hn, fillBuf_take]

/-- Witness for C4: a failing write of one byte followed by a
successful one-byte read in each direction, from the initial state. -/
theorem write_failure_logged_nonfatal_witness :
    (1 ≤ ([7] : List Byte).length ∧ 1 ≤ ([9] : List Byte).length) ∧
    ((relayStep initState (Event.serialRead (ReadResult.ok [7])) true).acts
        = [Action.writeTo Dest.socket [7],
           Action.stdout "Client write failed"] ∧
     (relayStep initState (Event.serialRead (ReadResult.ok [7])) true).control
        = LoopControl.continueLoop ∧
     (relayStep initState (Event.serialRead (ReadResult.ok [7])) true).acts.filter
        Action.isClose = [] ∧
     (relayStep ((relayStep initState (Event.serialRead (ReadResult.ok [7])) true).state)
        (Event.serialRead (ReadResult.ok [9])) false).acts.filter
        Action.isWrite = [Action.writeTo Dest.socket [9]] ∧
     (relayStep ((relayStep initState (Event.serialRead (ReadResult.ok [7])) true).state)
        (Event.socketRead (ReadResult.ok [9])) false).acts.filter
        Action.isWrite = [Action.writeTo Dest.serial [9]]) ∧
    ((relayStep initState (Event.socketRead (ReadResult.ok [7])) true).acts
        = [Action.writeTo Dest.serial [7],
           Action.stdout "Serial write failed"] ∧
     (relayStep initState (Event.socketRead (ReadResult.ok [7])) true).control
        = LoopControl.continueLoop ∧
     (relayStep initState (Event.socketRead (ReadResult.ok [7])) true).acts.filter
        Action.isClose = [] ∧
     (relayStep ((relayStep initState (Event.socketRead (ReadResult.ok [7])) true).state)
        (Event.serialRead (ReadResult.ok [9])) false).acts.filter
        Action.isWrite = [Action.writeTo Dest.socket [9]] ∧
     (relayStep ((relayStep initState (Event.socketRead (ReadResult.ok [7])) true).state)
        (Event.socketRead (ReadResult.ok [9])) false).acts.filter
        Action.isWrite = [Action.writeTo Dest.serial [9]]) :=
  ⟨⟨by decide, by decide⟩,
   (write_failure_logged_nonfatal initState [7] [9] false
      (by decide) (by decide)).1,
   (write_failure_logged_nonfatal initState [7] [9] false
      (by decide) (by decide)).2⟩

/-- The data-bits warning channel contains no forwarding write. -/
theorem parseDataBits_no_write (b : Nat) :
    (parseDataBits b).2.filter Action.isWrite = [] := by
  unfold parseDataBits
  split <;> simp [Action.isWrite]

/-- The data-bits warning channel contains no accept. -/
theorem parseDataBits_no_accept (b : Nat) :
    countAccept (parseDataBits b).2 = 0 := by
  unfold parseDataBits
  split <;> simp [countAccept]

/-- C5: a configured data-bits value outside 5, 6, 7, 8 is not fatal:
parsing substitutes eight and emits the warning, each in-range value
maps to its own setting with no warning, startup still proceeds to
open the serial endpoint with the substituted value, and the startup
outcome is the same as if 8 had been configured. -/
theorem invalid_data_bits_fall_back_to_eight (cfg : Args) (env : Env)
    (trace : List (Event × Bool)) (b : Nat)
    (h5 : b ≠ 5) (h6 : b ≠ 6) (h7 : b ≠ 7) (h8 : b ≠ 8) :
    parseDataBits b = (DataBits.eight,
        [Action.stderr ("Unsupported data bits: " ++ toString b
          ++ ". Using 8 as default.")]) ∧
    parseDataBits 5 = (DataBits.five, []) ∧
    parseDataBits 6 = (DataBits.six, []) ∧
    parseDataBits 7 = (DataBits.seven, []) ∧
    parseDataBits 8 = (DataBits.eight, []) ∧
    Action.openSerial (parseDataBits cfg.data_bits).1
        ∈ (mainActions cfg env trace).1 ∧
    (mainActions cfg env trace).2
        = (mainActions { cfg with data_bits := 8 } env trace).2 := by
  refine ⟨?_, rfl, rfl, rfl, rfl, ?_, ?_⟩
  · unfold parseDataBits
    split <;> simp_all
  · unfold mainActions
    split_ifs <;> simp
  · unfold mainActions
    split_ifs <;> rfl

/-- Witness for C5 at the invalid value 9 with an all-successful
environment and an empty trace. -/
theorem invalid_data_bits_fall_back_to_eight_witness :
    ((9 : Nat) ≠ 5 ∧ (9 : Nat) ≠ 6 ∧ (9 : Nat) ≠ 7 ∧ (9 : Nat) ≠ 8) ∧
    (parseDataBits 9 = (DataBits.eight,
        [Action.stderr ("Unsupported data bits: " ++ toString (9 : Nat)
          ++ ". Using 8 as default.")]) ∧
     parseDataBits 5 = (DataBits.five, []) ∧
     parseDataBits 6 = (DataBits.six, []) ∧
     parseDataBits 7 = (DataBits.seven, []) ∧
     parseDataBits 8 = (DataBits.eight, []) ∧
     Action.openSerial (parseDataBits
        ({ serial_port := "/dev/ttyUSB0", baud_rate := 115200, data_bits := 9,
           parity := ParityArg.none, stop_bits := StopBitsArg.one,
           tcp_port := 11223 } : Args).data_bits).1
        ∈ (mainActions
            { serial_port := "/dev/ttyUSB0", baud_rate := 115200, data_bits := 9,
              parity := ParityArg.none, stop_bits := StopBitsArg.one,
              tcp_port := 11223 }
            { openOk := true, bindOk := true, acceptOk := true,
              peerAddr := "127.0.0.1:5000" } []).1 ∧
     (mainActions
        { serial_port := "/dev/ttyUSB0", baud_rate := 115200, data_bits := 9,
          parity := ParityArg.none, stop_bits := StopBitsArg.one,
          tcp_port := 11223 }
        { openOk := true, bindOk := true, acceptOk := true,
          peerAddr := "127.0.0.1:5000" } []).2
        = (mainActions
            { ({ serial_port := "/dev/ttyUSB0", baud_rate := 115200, data_bits := 9,
                 parity := ParityArg.none, stop_bits := StopBitsArg.one,
                 tcp_port := 11223 } : Args) with data_bits := 8 }
            { openOk := true, bindOk := true, acceptOk := true,
              peerAddr := "127.0.0.1:5000" } []).2) :=
  ⟨⟨by decide, by decide, by decide, by decide⟩,
   invalid_data_bits_fall_back_to_eight
     { serial_port := "/dev/ttyUSB0", baud_rate := 115200, data_bits := 9,
       parity := ParityArg.none, stop_bits := StopBitsArg.one,
       tcp_port := 11223 }
     { openOk := true, bindOk := true, acceptOk := true,
       peerAddr := "127.0.0.1:5000" } [] 9
     (by decide) (by decide) (by decide) (by decide)⟩

/-- C6: `main` returns a startup error (hence a non-zero exit) exactly
when opening the serial device, binding the TCP listener, or accepting
the connection fails; in that case no forwarding write has happened
(the relay loop was never entered), and in steady state no iteration
of the loop ever exits it. -/
theorem startup_errors_fatal_loop_never_exits (cfg : Args) (env : Env)
    (trace : List (Event × Bool)) :
    ((mainActions cfg env trace).2 ≠ Option.none ↔
        (env.openOk = false ∨ env.bindOk = false ∨ env.acceptOk = false)) ∧
    ((mainActions cfg env trace).2 ≠ Option.none →
        ((mainActions cfg env trace).1).filter Action.isWrite = []) ∧
    (∀ (st : LoopState) (ev : Event) (wf : Bool),
        (relayStep st ev wf).control = LoopControl.continueLoop) := by
  refine ⟨?_, ?_, fun st ev wf => relayStep_continues st ev wf⟩
  · unfold mainActions
    split_ifs <;> simp_all
  · unfold mainActions
    split_ifs <;>
      simp [List.filter_append, parseDataBits_no_write, Action.isWrite]

/-- Witness for C6 in an environment whose bind fails. -/
theorem startup_errors_fatal_loop_never_exits_witness :
    ((mainActions
        { serial_port := "/dev/ttyUSB0", baud_rate := 115200, data_bits := 8,
          parity := ParityArg.none, stop_bits := StopBitsArg.one,
          tcp_port := 11223 }
        { openOk := true, bindOk := false, acceptOk := true,
          peerAddr := "127.0.0.1:5000" } []).2 ≠ Option.none ↔
        (({ openOk := true, bindOk := false, acceptOk := true,
            peerAddr := "127.0.0.1:5000" } : Env).openOk = false ∨
         ({ openOk := true, bindOk := false, acceptOk := true,
            peerAddr := "127.0.0.1:5000" } : Env).bindOk = false ∨
         ({ openOk := true, bindOk := false, acceptOk := true,
            peerAddr := "127.0.0.1:5000" } : Env).acceptOk = false)) ∧
    ((mainActions
        { serial_port := "/dev/ttyUSB0", baud_rate := 115200, data_bits := 8,
          parity := ParityArg.none, stop_bits := StopBitsArg.one,
          tcp_port := 11223 }
        { openOk := true, bindOk := false, acceptOk := true,
          peerAddr := "127.0.0.1:5000" } []).2 ≠ Option.none →
        ((mainActions
            { serial_port := "/dev/ttyUSB0", baud_rate := 115200, data_bits := 8,
              parity := ParityArg.none, stop_bits := StopBitsArg.one,
              tcp_port := 11223 }
            { openOk := true, bindOk := false, acceptOk := true,
              peerAddr := "127.0.0.1:5000" } []).1).filter Action.isWrite = []) ∧
    (∀ (st : LoopState) (ev : Event) (wf : Bool),
        (relayStep st ev wf).control = LoopControl.continueLoop) :=
  startup_errors_fatal_loop_never_exits
    { serial_port := "/dev/ttyUSB0", baud_rate := 115200, data_bits := 8,
      parity := ParityArg.none, stop_bits := StopBitsArg.one,
      tcp_port := 11223 }
    { openOk := true, bindOk := false, acceptOk := true,
      peerAddr := "127.0.0.1:5000" } []

/-- C7: over the whole process lifetime accept is called at most once;
it is called exactly once whenever open and bind succeed (whatever the
relay loop then does), and no relay-loop iteration ever calls accept,
so a second connection is never accepted. -/
theorem listener_accepts_at_most_once (cfg : Args) (env : Env)
    (trace : List (Event × Bool)) :
    countAccept (mainActions cfg env trace).1 ≤ 1 ∧
    (env.openOk = true → env.bindOk = true →
        countAccept (mainActions cfg env trace).1 = 1) ∧
    (∀ (st : LoopState) (ev : Event) (wf : Bool),
        countAccept (relayStep st ev wf).acts = 0) := by
  refine ⟨?_, ?_, fun st ev wf => relayStep_no_accept st ev wf⟩ <;>
  · unfold mainActions
    split_ifs <;>
      simp_all [countAccept_append, countAccept, parseDataBits_no_accept,
        runLoop_no_accept]

/-- Witness for C7 with an all-successful environment and a one-event
trace. -/
theorem listener_accepts_at_most_once_witness :
    countAccept (mainActions
        { serial_port := "/dev/ttyUSB0", baud_rate := 115200, data_bits := 8,
          parity := ParityArg.none, stop_bits := StopBitsArg.one,
          tcp_port := 11223 }
        { openOk := true, bindOk := true, acceptOk := true,
          peerAddr := "127.0.0.1:5000" }
        [(Event.serialRead (ReadResult.ok [1]), false)]).1 ≤ 1 ∧
    (({ openOk := true, bindOk := true, acceptOk := true,
        peerAddr := "127.0.0.1:5000" } : Env).openOk = true →
     ({ openOk := true, bindOk := true, acceptOk := true,
        peerAddr := "127.0.0.1:5000" } : Env).bindOk = true →
        countAccept (mainActions
          { serial_port := "/dev/ttyUSB0", baud_rate := 115200, data_bits := 8,
            parity := ParityArg.none, stop_bits := StopBitsArg.one,
            tcp_port := 11223 }
          { openOk := true, bindOk := true, acceptOk := true,
            peerAddr := "127.0.0.1:5000" }
          [(Event.serialRead (ReadResult.ok [1]), false)]).1 = 1) ∧
    (∀ (st : LoopState) (ev : Event) (wf : Bool),
        countAccept (relayStep st ev wf).acts = 0) :=
  listener_accepts_at_most_once
    { serial_port := "/dev/ttyUSB0", baud_rate := 115200, data_bits := 8,
      parity := ParityArg.none, stop_bits := StopBitsArg.one,
      tcp_port := 11223 }
    { openOk := true, bindOk := true, acceptOk := true,
      peerAddr := "127.0.0.1:5000" }
    [(Event.serialRead (ReadResult.ok [1]), false)]

/-- A positive read makes the iteration's write payload list exactly
the delivered bytes, whatever the write outcome. -/
theorem relayStep_payloads_ok (st : LoopState) (data : List Byte)
    (wfail : Bool) (h : 1 ≤ data.length) :
    writePayloads (relayStep st
        (Event.serialRead (ReadResult.ok data)) wfail).acts = [data] ∧
    writePayloads (relayStep st
        (Event.socketRead (ReadResult.ok data)) wfail).acts = [data] := by
  have hn : 0 < data.length := h
  cases wfail <;> simp [relayStep, writePayloads, fillBuf_take, hn]

/-- C8: a read delivers at most the 1024-byte chunk size (the buffers
keep length 1024 across iterations, so the read contract caps `n` at
1024), hence every single forwarding write carries at most 1024 bytes;
and a source split over two consecutive iterations is forwarded as two
writes whose payloads, in order, are exactly the two delivered chunks,
each individually order-preserving. -/
theorem forwarded_writes_bounded_by_chunk (st : LoopState)
    (data data2 : List Byte) (wfail wfail2 : Bool)
    (h : data.length ≤ chunkSize) (hp : 1 ≤ data.length)
    (hp2 : 1 ≤ data2.length)
    (hbuf : st.serial_buf.length = chunkSize)
    (hbuf2 : st.socket_buf.length = chunkSize) :
    (∀ bs ∈ writePayloads
        (relayStep st (Event.serialRead (ReadResult.ok data)) wfail).acts,
        bs.length ≤ chunkSize) ∧
    (∀ bs ∈ writePayloads
        (relayStep st (Event.socketRead (ReadResult.ok data)) wfail).acts,
        bs.length ≤ chunkSize) ∧
    ((relayStep st (Event.serialRead (ReadResult.ok data))
        wfail).state.serial_buf.length = chunkSize ∧
     (relayStep st (Event.socketRead (ReadResult.ok data))
        wfail).state.socket_buf.length = chunkSize) ∧
    writePayloads (runLoop st
        [(Event.serialRead (ReadResult.ok data), wfail),
         (Event.serialRead (ReadResult.ok data2), wfail2)]).2
        = [data, data2] ∧
    writePayloads (runLoop st
        [(Event.socketRead (ReadResult.ok data), wfail),
         (Event.socketRead (ReadResult.ok data2), wfail2)]).2
        = [data, data2] := by
  have hn : 0 < data.length := hp
  refine ⟨?_, ?_, ⟨?_, ?_⟩, ?_, ?_⟩
  · intro bs hbs
    rw [(relayStep_payloads_ok st data wfail hp).1] at hbs
    simp only [List.mem_singleton] at hbs
    subst hbs
    exact h
  · intro bs hbs
    rw [(relayStep_payloads_ok st data wfail hp).2] at hbs
    simp only [List.mem_singleton] at hbs
    subst hbs
    exact h
  · cases wfail <;>
      simp [relayStep, hn, fillBuf_length, hbuf, h]
  · cases wfail <;>
      simp [relayStep, hn, fillBuf_length, hbuf2, h]
  · simp only [runLoop, List.append_nil]
    rw [writePayloads_append,
      (relayStep_payloads_ok st data wfail hp).1,
      (relayStep_payloads_ok
        ((relayStep st (Event.serialRead (ReadResult.ok data)) wfail).state)
        data2 wfail2 hp2).1]
    rfl
  · simp only [runLoop, List.append_nil]
    rw [writePayloads_append,
      (relayStep_payloads_ok st data wfail hp).2,
      (relayStep_payloads_ok
        ((relayStep st (Event.socketRead (ReadResult.ok data)) wfail).state)
        data2 wfail2 hp2).2]
    rfl

/-- Witness for C8: two consecutive 1024-byte chunks from the initial
state (the spec's 2048-byte scenario split across two iterations). -/
theorem forwarded_writes_bounded_by_chunk_witness :
    ((List.replicate chunkSize (65 : Byte)).length ≤ chunkSize ∧
     1 ≤ (List.replicate chunkSize (65 : Byte)).length ∧
     1 ≤ (List.replicate chunkSize (66 : Byte)).length ∧
     initState.serial_buf.length = chunkSize ∧
     initState.socket_buf.length = chunkSize) ∧
    writePayloads (runLoop initState
        [(Event.serialRead (ReadResult.ok (List.replicate chunkSize 65)), false),
         (Event.serialRead (ReadResult.ok (List.replicate chunkSize 66)), false)]).2
        = [List.replicate chunkSize 65, List.replicate chunkSize 66] :=
  ⟨⟨by simp, by rw [List.length_replicate]; decide,
    by rw [List.length_replicate]; decide,
    by simp [initState], by simp [initState]⟩,
   (forwarded_writes_bounded_by_chunk initState
      (List.replicate chunkSize 65) (List.replicate chunkSize 66) false false
      (by simp) (by rw [List.length_replicate]; decide)
      (by rw [List.length_replicate]; decide)
      (by simp [initState]) (by simp [initState])).2.2.2.1⟩

/-- C9 counterexample: in the iteration where a one-byte serial read's
forwarding write fails, the diagnostic "Client write failed" is
emitted to standard output and nothing at all goes to standard error,
contradicting the claim that every steady-state error diagnostic is
emitted to standard error. -/
theorem write_failure_diag_on_stdout :
    (relayStep initState (Event.serialRead (ReadResult.ok [1])) true).acts
      = [Action.writeTo Dest.socket [1], Action.stdout "Client write failed"] ∧
    (relayStep initState (Event.serialRead (ReadResult.ok [1])) true).acts.filter
      Action.isStderr = [] := by
  constructor <;> rfl

/-- C9 amended: read-error diagnostics (serial and socket) are emitted
to standard error, but write-failure diagnostics ("Client write
failed", "Serial write failed") are emitted to standard output, with
nothing sent to standard error in a failing-write iteration. -/
theorem diagnostic_channels_amended (st : LoopState) (e : String)
    (data : List Byte) (wfail : Bool) (h : 1 ≤ data.length) :
    (relayStep st (Event.serialRead (ReadResult.ioErr e)) wfail).acts
        = [Action.stderr ("Serial read error: " ++ e)] ∧
    (relayStep st (Event.socketRead (ReadResult.ioErr e)) wfail).acts
        = [Action.stderr ("Socket read error: " ++ e)] ∧
    ((relayStep st (Event.serialRead (ReadResult.ok data)) true).acts.filter
        Action.isStderr = [] ∧
     Action.stdout "Client write failed" ∈
        (relayStep st (Event.serialRead (ReadResult.ok data)) true).acts) ∧
    ((relayStep st (Event.socketRead (ReadResult.ok data)) true).acts.filter
        Action.isStderr = [] ∧
     Action.stdout "Serial write failed" ∈
        (relayStep st (Event.socketRead (ReadResult.ok data)) true).acts) := by
  have hn : 0 < data.length := h
  refine ⟨rfl, rfl, ⟨?_, ?_⟩, ⟨?_, ?_⟩⟩ <;>
    simp [relayStep, hn, Action.isStderr, fillBuf_take]

/-- Witness for the amended C9 at a one-byte read. -/
theorem diagnostic_channels_amended_witness :
    1 ≤ ([1] : List Byte).length ∧
    ((relayStep initState (Event.serialRead (ReadResult.ioErr "oops")) false).acts
        = [Action.stderr ("Serial read error: " ++ "oops")] ∧
     (relayStep initState (Event.socketRead (ReadResult.ioErr "oops")) false).acts
        = [Action.stderr ("Socket read error: " ++ "oops")] ∧
     ((relayStep initState (Event.serialRead (ReadResult.ok [1])) true).acts.filter
        Action.isStderr = [] ∧
      Action.stdout "Client write failed" ∈
        (relayStep initState (Event.serialRead (ReadResult.ok [1])) true).acts) ∧
     ((relayStep initState (Event.socketRead (ReadResult.ok [1])) true).acts.filter
        Action.isStderr = [] ∧
      Action.stdout "Serial write failed" ∈
        (relayStep initState (Event.socketRead (ReadResult.ok [1])) true).acts)) :=
  ⟨by decide, diagnostic_channels_amended initState "oops" [1] false (by decide)⟩

/-- C10: what an iteration forwards (and every other action it emits,
and whether it continues) depends only on the select outcome of that
iteration — two runs whose current reads agree behave identically,
whatever residue either run's buffers hold from earlier iterations in
either direction. -/
theorem forwarded_bytes_independent_of_residue (st1 st2 : LoopState)
    (ev : Event) (wfail : Bool) :
    (relayStep st1 ev wfail).acts = (relayStep st2 ev wfail).acts ∧
    (relayStep st1 ev wfail).control = (relayStep st2 ev wfail).control := by
  rcases ev with r | r <;> rcases r with data | e
  · rcases Nat.eq_zero_or_pos data.length with hn | hn <;> cases wfail <;>
      simp [relayStep, hn, fillBuf_take]
  · exact ⟨rfl, rfl⟩
  · rcases Nat.eq_zero_or_pos data.length with hn | hn <;> cases wfail <;>
      simp [relayStep, hn, fillBuf_take]
  · exact ⟨rfl, rfl⟩

end RemoteSerial
